import Mathlib

/-
  Verification of the delivery-tracking synchronization core of the embhub
  repository (React admin UI over a Django REST backend).

  Machine strings are modelled as lists of characters (`Str`), so that the
  string operations the code performs (split on a comma, trim, lower-casing)
  become executable list functions amenable to induction.
-/

set_option autoImplicit false

namespace EmbHub

/-- Strings of the modelled program, as lists of characters. -/
abbrev Str := List Char

/-- Lower-casing of a string, character by character (JS `toLowerCase`,
Python `.lower()` on the ASCII carrier names involved). -/
def toLower (s : Str) : Str := s.map Char.toLower

/-- Whitespace trimming at both ends (JS `String.prototype.trim`). -/
def trim (s : Str) : Str :=
  ((s.dropWhile Char.isWhitespace).reverse.dropWhile Char.isWhitespace).reverse

/-- Split on the comma character, JS `split(',')` semantics: the result is
always non-empty, and `"".split(',') = [""]`. -/
def splitComma : Str → List Str
  | [] => [[]]
  | c :: rest =>
    if c = ',' then [] :: splitComma rest
    else
      match splitComma rest with
      | [] => [[c]]
      | s :: ss => (c :: s) :: ss

/-- First comma-separated segment: JS `s.split(',')[0]` (defined because JS
`split` never returns an empty array). -/
def firstSegment (s : Str) : Str := (splitComma s).headD []

/-! ### The tracking-URL constructor (frontend, real code)

Embeds `getTrackingUrl` from
`src/Frontend/front_sinan/src/pages/EMBHub.tsx` (lines 990-1006):

    const getTrackingUrl = (vendor: string, trackingId: string) => {
      if (!trackingId || !vendor) return null;
      const firstTrackingId = trackingId.split(',')[0]?.trim();
      if (!firstTrackingId) return null;
      switch (vendor.toLowerCase()) {
        case 'fedex': return `https://www.fedex.com/fedextrack/?trknbr=${firstTrackingId}`;
        case 'ups': return `https://www.ups.com/track?loc=null&tracknum=${firstTrackingId}`;
        case 'usps': return `https://tools.usps.com/go/TrackConfirmAction?tLabels=${firstTrackingId}`;
        default: return null;
      }
    };

JS falsiness of a string is emptiness, so `!trackingId` becomes
`trackingId = []`. -/

/-- Embedding of the frontend `getTrackingUrl`. -/
def getTrackingUrl (vendor trackingId : Str) : Option Str :=
  if trackingId = [] ∨ vendor = [] then none
  else
    let firstTrackingId := trim (firstSegment trackingId)
    if firstTrackingId = [] then none
    else if toLower vendor = "fedex".data then
      some ("https://www.fedex.com/fedextrack/?trknbr=".data ++ firstTrackingId)
    else if toLower vendor = "ups".data then
      some ("https://www.ups.com/track?loc=null&tracknum=".data ++ firstTrackingId)
    else if toLower vendor = "usps".data then
      some ("https://tools.usps.com/go/TrackConfirmAction?tLabels=".data ++ firstTrackingId)
    else none

/-- The characterization of `getTrackingUrl` as the claim states it: `none`
exactly on the four degenerate conditions, otherwise the carrier URL with
the trimmed first segment spliced in. -/
def getTrackingUrlSpec (vendor trackingId : Str) : Option Str :=
  if trackingId = [] ∨ vendor = [] ∨ trim (firstSegment trackingId) = [] ∨
      toLower vendor ∉ ["fedex".data, "ups".data, "usps".data] then none
  else if toLower vendor = "fedex".data then
    some ("https://www.fedex.com/fedextrack/?trknbr=".data ++ trim (firstSegment trackingId))
  else if toLower vendor = "ups".data then
    some ("https://www.ups.com/track?loc=null&tracknum=".data ++ trim (firstSegment trackingId))
  else
    some ("https://tools.usps.com/go/TrackConfirmAction?tLabels=".data ++ trim (firstSegment trackingId))

/-! ### The order record and the Order Selector

The backend service module (`tracking_service.py`) is not among the provided
sources; its behaviour is documented by the repository README
(`src/unnamed/part_007`, "Order Filtering Logic", lines 217-227) and by the
specification. The definitions below are therefore modelled from those
documents. -/

/-- Modelled from the spec: the Order ("packing slip") record, restricted to
the attributes the tracking core reads and writes (spec section 3; the
backend model definition is missing from the sources). `tracking_ids` is the
comma-separated string of carrier tracking numbers. -/
structure Order where
  id : Nat
  status : Str
  tracking_ids : Str
  tracking_vendor : Str
  tracking_status : Str
  updated_at : Nat
deriving DecidableEq, Repr

/-- Modelled from the spec: the Order Selector's filter predicate
(spec section 4.1 and README "Order Filtering Logic":
status is shipped, tracking_ids and tracking_vendor non-empty,
tracking_status not case-insensitively equal to "delivered");
`tracking_service.py` itself is missing from the sources. -/
def isEligible (o : Order) : Bool :=
  (o.status == "shipped".data) &&
  !(o.tracking_ids.isEmpty) &&
  !(o.tracking_vendor.isEmpty) &&
  !(toLower o.tracking_status == "delivered".data)

/-- Modelled from the spec: `selectEligibleOrders` filters the persisted
orders by the eligibility predicate (spec section 4.1). -/
def selectEligibleOrders (orders : List Order) : List Order :=
  orders.filter isEligible

/-- The filter predicate exactly as the spec words it, as a proposition. -/
def EligibleSpec (o : Order) : Prop :=
  o.status = "shipped".data ∧ o.tracking_ids ≠ [] ∧ o.tracking_vendor ≠ [] ∧
    toLower o.tracking_status ≠ "delivered".data

/-! ### The Tracking Client Adapter and the per-tick execution

`track123_service.py` and the task functions of `tracking_service.py` are
missing from the sources; the adapter contract and the per-tick execution
are modelled from spec sections 4.2, 4.3 and 7 and from the README. The
carrier network is an oracle parameter, so every theorem below quantifies
over all possible carrier responses. -/

/-- Modelled from the spec: the error taxonomy of section 7. -/
inductive FailureKind where
  | ConfigMissing
  | Transient
  | ProtocolError
  | StorageError
deriving DecidableEq, Repr

/-- Modelled from the spec: the canonical adapter result
`TrackingResult \x7b status_text, is_delivered \x7d` of section 4.2. -/
structure TrackingResult where
  status_text : Str
  is_delivered : Bool
deriving DecidableEq, Repr

/-- Tests whether the first string occurs at the head of the second. -/
def matchesAt : Str → Str → Bool
  | [], _ => true
  | _ :: _, [] => false
  | a :: as, b :: bs => a == b && matchesAt as bs

/-- Tests whether the first string occurs anywhere inside the second. -/
def strContains (needle : Str) : Str → Bool
  | [] => needle.isEmpty
  | b :: bs => matchesAt needle (b :: bs) || strContains needle bs

/-- Modelled from the spec: `is_delivered` is true iff the normalized status
text case-insensitively equals or contains "delivered" (section 4.2; the
contains case subsumes the equals case). -/
def classifyDelivered (statusText : Str) : Bool :=
  strContains "delivered".data (toLower statusText)

/-- The carrier network as an oracle: vendor and tracking number in,
normalized status text (or a failure) out. -/
abbrev Net := Str → Str → Except FailureKind Str

/-- Modelled from the spec: `fetchStatus(vendor, trackingNumber)` performs the
network call and wraps the normalized text with its delivered
classification (section 4.2). -/
def fetchStatus (net : Net) (vendor trackingNumber : Str) :
    Except FailureKind TrackingResult :=
  match net vendor trackingNumber with
  | .error k => .error k
  | .ok text => .ok ⟨text, classifyDelivered text⟩

/-- Modelled from the spec: the first/primary tracking number of an order —
the trimmed first comma-separated entry of `tracking_ids` (section 4.2,
matching the frontend's `split(',')[0]?.trim()`). -/
def primaryTracking (o : Order) : Str := trim (firstSegment o.tracking_ids)

/-- The comma-separated `tracking_ids` string read as the list of tracking
numbers it holds (each entry trimmed). -/
def parseTrackingIds (s : Str) : List Str := (splitComma s).map trim

/-- Modelled from the spec: the per-order result record of the update
endpoints (README "API Response Examples"): on success the fields
success/order_id/tracking_number/old_status/new_status/is_delivered, on
failure success:false with the order and a human-readable error string
plus its taxonomy kind. -/
inductive OrderResult where
  | ok (order_id : Nat) (tracking_number : Str) (old_status new_status : Str)
      (is_delivered : Bool)
  | err (order_id : Nat) (kind : FailureKind) (error : Str)
deriving DecidableEq, Repr

/-- Modelled from the spec: the human-readable error strings (README error
example for the ConfigMissing case). -/
def failureMessage : FailureKind → Str
  | .ConfigMissing => "No Track123 API key configured".data
  | .Transient => "Network error or timeout contacting carrier API".data
  | .ProtocolError => "Unexpected carrier API response".data
  | .StorageError => "Failed to write tracking update".data

/-- Modelled from the spec: one refresh task for one order (section 4.3):
fetch first, then on success write `tracking_status` and `updated_at` on
that single order; on failure leave the order unchanged and record the
failure attributed to that order. -/
def refreshOrder (net : Net) (now : Nat) (o : Order) : Order × OrderResult :=
  match fetchStatus net o.tracking_vendor (primaryTracking o) with
  | .ok r =>
      ({ o with tracking_status := r.status_text, updated_at := now },
       .ok o.id (primaryTracking o) o.tracking_status r.status_text r.is_delivered)
  | .error k => (o, .err o.id k (failureMessage k))

/-- Modelled from the spec: the post-state of one tick — every eligible order
is refreshed independently, every other order is untouched (section 4.3). -/
def tickOrders (net : Net) (now : Nat) (orders : List Order) : List Order :=
  orders.map (fun o => if isEligible o then (refreshOrder net now o).1 else o)

/-- Modelled from the spec: the per-order result records of one tick, one per
eligible order (section 4.3). -/
def tickResults (net : Net) (now : Nat) (orders : List Order) : List OrderResult :=
  (orders.filter isEligible).map (fun o => (refreshOrder net now o).2)

/-- The orders for which a tick invokes the Tracking Client Adapter: exactly
the eligible ones. -/
def tickQueried (orders : List Order) : List Order := orders.filter isEligible

/-- The tracking numbers a tick sends to the carrier network: the primary
number of each queried order. -/
def tickQueriedNumbers (orders : List Order) : List Str :=
  (tickQueried orders).map primaryTracking

/-- Modelled from the spec: the reconciliation job as a sequence of ticks;
`net n` and `now n` are the carrier responses and the clock at tick `n`. -/
def runTicks (net : Nat → Net) (now : Nat → Nat) (orders : List Order) :
    Nat → List Order
  | 0 => orders
  | n + 1 => tickOrders (net n) (now n) (runTicks net now orders n)

/-- A concrete order for the C2 counterexample. -/
def orderC2 : Order := ⟨1, "shipped".data, "1Z999".data, "ups".data, "in transit".data, 0⟩

/-- A carrier network whose normalized status text contains, but does not
equal, "delivered". -/
def netC2 : Nat → Net := fun _ _ _ => Except.ok "delivered to neighbor".data

/-- Concrete two-order batch for the C3 witness: the carrier call fails for
order 10 and succeeds for order 11. -/
def netC3 : Net := fun _ tn =>
  if tn = "B1".data then Except.ok "out for delivery".data
  else Except.error FailureKind.Transient

/-- The two orders of the C3 witness batch. -/
def ordersC3 : List Order :=
  [⟨10, "shipped".data, "A1".data, "fedex".data, "in transit".data, 0⟩,
   ⟨11, "shipped".data, "B1".data, "ups".data, "in transit".data, 0⟩]

/-! ### The Scheduler's periodic registration

Modelled from the spec (section 4.3, section 3 "ScheduleState") and the
README (`start_tracking_scheduler`, optional `--force`): the job-queue
metadata is the list of named periodic registrations; `start` is a no-op
when the logical job name is already registered unless the force flag is
given, in which case the old registration is replaced in one atomic step
(the replacement is a single transition of the model, so no intermediate
state with two active triggers exists). -/

/-- Modelled from the spec: one periodic registration of the job queue. -/
structure ScheduleEntry where
  name : Str
  interval : Nat
deriving DecidableEq, Repr

/-- The logical job name of the tracking scheduler (README status example). -/
def trackingJobName : Str := "tracking_status_updater".data

/-- Modelled from the spec: `start(intervalMinutes)` with the optional
force-restart flag, over the registration list. -/
def start_tracking_scheduler (interval : Nat) (force : Bool)
    (s : List ScheduleEntry) : List ScheduleEntry :=
  if s.any (fun r => r.name == trackingJobName) then
    if force then
      ⟨trackingJobName, interval⟩ :: s.filter (fun r => !(r.name == trackingJobName))
    else s
  else ⟨trackingJobName, interval⟩ :: s

/-- Number of active periodic registrations carrying the tracking job's
logical name. -/
def countJob (s : List ScheduleEntry) : Nat :=
  (s.filter (fun r => r.name == trackingJobName)).length

/-! ### The manual update endpoints -/

/-- Modelled from the spec: the bulk tracking/update response — `success`,
the number of processed orders, and the per-order result records
(spec section 6 and README "Update All Pending Orders"). -/
structure BulkResponse where
  success : Bool
  processed : Nat
  results : List OrderResult
deriving DecidableEq, Repr

/-- Modelled from the spec: `update_all_pending_orders` runs one synchronous
tick over all eligible orders and reports the per-order results
(README "Key Functions"). -/
def update_all_pending_orders (net : Net) (now : Nat) (orders : List Order) :
    List Order × BulkResponse :=
  (tickOrders net now orders,
   ⟨true, (tickResults net now orders).length, tickResults net now orders⟩)

/-- Shape of a per-order result record: the success variant carries the
success/order_id/tracking_number/old_status/new_status/is_delivered fields
by construction; the failure variant must carry a non-empty human-readable
error string. -/
def resultShapeOk : OrderResult → Prop
  | .ok _ _ _ _ _ => True
  | .err _ _ e => e ≠ []

/-- Modelled from the spec: the single-order tracking/update response
(README "API Response Examples": success, already-delivered skip, not
found, or a failure with its human-readable error). -/
inductive SingleResponse where
  | ok (order_id : Nat) (tracking_number : Str) (old_status new_status : Str)
      (is_delivered : Bool)
  | skipped (order_id : Nat)
  | notFound
  | err (order_id : Nat) (kind : FailureKind) (error : Str)
deriving DecidableEq, Repr

/-- Modelled from the spec: `update_single_order_tracking(packing_slip_id)` —
locate the order, skip it when already delivered, otherwise fetch and, on
success, write `tracking_status` and `updated_at` of that single order in
one atomic update (README "Key Functions", spec section 4.3). -/
def update_single_order_tracking (net : Net) (now : Nat) (orders : List Order)
    (oid : Nat) : List Order × SingleResponse :=
  match orders.find? (fun o => o.id == oid) with
  | none => (orders, .notFound)
  | some o =>
    if toLower o.tracking_status == "delivered".data then (orders, .skipped o.id)
    else
      match fetchStatus net o.tracking_vendor (primaryTracking o) with
      | .ok r =>
          (orders.map (fun p => if p.id == oid then
              { p with tracking_status := r.status_text, updated_at := now } else p),
           .ok o.id (primaryTracking o) o.tracking_status r.status_text r.is_delivered)
      | .error k => (orders, .err o.id k (failureMessage k))

/-! ### The manual per-order fetch path of the frontend -/

/-- Action taken by the frontend handler: the warning notification (no
network request issued) or the POST to the fetch-tracking-status route. -/
inductive FetchAction where
  | warned
  | requested (path : Str)
deriving DecidableEq, Repr

/-- Embedding of `handleFetchTrackingStatus` from
`src/Frontend/front_sinan/src/pages/EMBHub.tsx` (lines 1741-1749): when
`record.tracking_ids` or `record.tracking_vendor` is falsy (these fields
are strings, so falsy means empty), the handler shows a warning and returns
before building the request URL; otherwise it POSTs to
`PackingSlipsUrl/<id>/fetch-tracking-status/`. -/
def handleFetchTrackingStatus (record : Order) : FetchAction :=
  if record.tracking_ids = [] ∨ record.tracking_vendor = [] then .warned
  else .requested ((toString record.id).data ++ "/fetch-tracking-status/".data)

/-! ### Which tracking numbers are queried -/

/-- A concrete order holding two comma-separated tracking numbers, for the
C9 counterexample. -/
def orderC9 : Order :=
  ⟨2, "shipped".data, "111,222".data, "fedex".data, "in transit".data, 0⟩

theorem splitComma_ne_nil : ∀ s : Str, splitComma s ≠ []
  | [] => by simp [splitComma]
  | c :: rest => by
      simp only [splitComma]
      split
      · simp
      · split <;> simp

theorem firstSegment_cons_of_ne (c : Char) (rest : Str) (h : ¬ c = ',') :
    firstSegment (c :: rest) = c :: firstSegment rest := by
  simp only [firstSegment, splitComma, if_neg h]
  cases hs : splitComma rest with
  | nil => exact absurd hs (splitComma_ne_nil rest)
  | cons s ss => simp

theorem firstSegment_comma_irrelevant (a b c : Str) :
    firstSegment (a ++ ',' :: b) = firstSegment (a ++ ',' :: c) := by
  induction a with
  | nil => simp [firstSegment, splitComma]
  | cons x xs ih =>
      by_cases hx : x = ','
      · subst hx
        simp [firstSegment, splitComma]
      · rw [List.cons_append, List.cons_append,
          firstSegment_cons_of_ne x _ hx, firstSegment_cons_of_ne x _ hx, ih]

example : getTrackingUrl "FedEx".data " 111 ,222".data =
    some "https://www.fedex.com/fedextrack/?trknbr=111".data := by decide

example : getTrackingUrl "dhl".data "111".data = none := by decide

/-- C10: `getTrackingUrl(vendor, trackingId)` is total and returns null exactly
when `trackingId` is empty, `vendor` is empty, the first comma-separated
segment of `trackingId` trims to the empty string, or the lowercased vendor is
not one of fedex/ups/usps; otherwise it returns that carrier's tracking URL
embedding the trimmed first segment, and the segments after the first comma
never influence the result. -/
theorem getTrackingUrl_characterization :
    (∀ vendor trackingId : Str,
      getTrackingUrl vendor trackingId = getTrackingUrlSpec vendor trackingId) ∧
    (∀ vendor a b c : Str,
      getTrackingUrl vendor (a ++ ',' :: b) = getTrackingUrl vendor (a ++ ',' :: c)) := by
  constructor
  · intro v t
    by_cases h1 : t = [] <;> by_cases h2 : v = [] <;>
      by_cases h3 : trim (firstSegment t) = [] <;>
      by_cases h4 : toLower v = "fedex".data <;>
      by_cases h5 : toLower v = "ups".data <;>
      by_cases h6 : toLower v = "usps".data <;>
      simp [getTrackingUrl, getTrackingUrlSpec, h1, h2, h3, h4, h5, h6]
  · intro v a b c
    have hb : (a ++ ',' :: b : Str) ≠ [] := by simp
    have hc : (a ++ ',' :: c : Str) ≠ [] := by simp
    simp only [getTrackingUrl, firstSegment_comma_irrelevant a b c, hb, hc,
      false_or]

theorem isEligible_iff (o : Order) : isEligible o = true ↔ EligibleSpec o := by
  simp [isEligible, EligibleSpec, List.isEmpty_iff, and_assoc]

/-- C1: an order is in the Order Selector's eligible set iff it is persisted
and its status is "shipped", its tracking_ids and tracking_vendor are
non-empty, and its tracking_status is not case-insensitively "delivered";
in particular no order whose tracking_status is case-insensitively
"delivered" ever appears in the output. -/
theorem selectEligibleOrders_iff :
    ∀ (orders : List Order) (o : Order),
      (o ∈ selectEligibleOrders orders ↔ o ∈ orders ∧ EligibleSpec o) ∧
      (toLower o.tracking_status = "delivered".data →
        o ∉ selectEligibleOrders orders) := by
  intro orders o
  constructor
  · simp [selectEligibleOrders, List.mem_filter, isEligible_iff]
  · intro hd hmem
    rw [selectEligibleOrders, List.mem_filter, isEligible_iff] at hmem
    exact hmem.2.2.2.2 hd

/-- Witness for C1 at a concrete delivered order. -/
theorem selectEligibleOrders_iff_witness :
    (⟨7, "shipped".data, "1Z9".data, "ups".data, "Delivered".data, 0⟩ : Order) ∉
      selectEligibleOrders [⟨7, "shipped".data, "1Z9".data, "ups".data, "Delivered".data, 0⟩] :=
  (selectEligibleOrders_iff _ _).2 (by decide)

theorem length_tickOrders (net : Net) (now : Nat) (orders : List Order) :
    (tickOrders net now orders).length = orders.length := by
  simp [tickOrders]

theorem length_runTicks (net : Nat → Net) (now : Nat → Nat)
    (orders : List Order) (n : Nat) :
    (runTicks net now orders n).length = orders.length := by
  induction n with
  | zero => rfl
  | succ n ih => rw [runTicks, length_tickOrders, ih]

theorem isEligible_of_delivered (o : Order)
    (h : toLower o.tracking_status = "delivered".data) : isEligible o = false := by
  simp [isEligible, h]

theorem not_mem_tickQueried_of_delivered (s : List Order) (o : Order)
    (hd : toLower o.tracking_status = "delivered".data) : o ∉ tickQueried s := by
  intro hmem
  rw [tickQueried, List.mem_filter] at hmem
  rw [isEligible_of_delivered o hd] at hmem
  exact Bool.false_ne_true hmem.2

theorem runTicks_get_of_delivered (net : Nat → Net) (now : Nat → Nat)
    (orders : List Order) (j : Nat) (h : j < orders.length)
    (hd : toLower (orders.get ⟨j, h⟩).tracking_status = "delivered".data) :
    ∀ (n : Nat) (h' : j < (runTicks net now orders n).length),
      (runTicks net now orders n).get ⟨j, h'⟩ = orders.get ⟨j, h⟩ := by
  intro n
  induction n with
  | zero => intro h'; rfl
  | succ n ih =>
      intro h'
      have hn : j < (runTicks net now orders n).length := by
        rw [length_runTicks]; exact h
      have hprev : (runTicks net now orders n).get ⟨j, hn⟩ = orders.get ⟨j, h⟩ := ih hn
      show (tickOrders (net n) (now n) (runTicks net now orders n)).get ⟨j, h'⟩ = _
      simp only [tickOrders, List.get_eq_getElem, List.getElem_map]
      simp only [List.get_eq_getElem] at hprev
      have hd2 := hd
      rw [List.get_eq_getElem] at hd2
      rw [hprev, isEligible_of_delivered _ hd2]
      simp

/-- C2 (amended): once an order's tracking_status case-insensitively EQUALS
"delivered", no subsequent tick ever queries the carrier-tracking API for
that order again — the record is preserved forever and is excluded from
every tick's queried set, independent of cadence. (The adapter's
is_delivered classification triggers this skip only when the status text
actually equals "delivered"; a text that merely contains it does not.) -/
theorem delivered_permanently_skipped :
    ∀ (net : Nat → Net) (now : Nat → Nat) (orders : List Order)
      (j : Nat) (h : j < orders.length),
      toLower (orders.get ⟨j, h⟩).tracking_status = "delivered".data →
      ∀ (n : Nat) (h' : j < (runTicks net now orders n).length),
        (runTicks net now orders n).get ⟨j, h'⟩ = orders.get ⟨j, h⟩ ∧
        orders.get ⟨j, h⟩ ∉ tickQueried (runTicks net now orders n) := by
  intro net now orders j h hd n h'
  exact ⟨runTicks_get_of_delivered net now orders j h hd n h',
    not_mem_tickQueried_of_delivered _ _ hd⟩

/-- Witness for C2 (amended) on a concrete delivered order over two ticks. -/
theorem delivered_permanently_skipped_witness :
    (runTicks (fun _ _ _ => Except.ok "x".data) (fun _ => 5)
        [⟨3, "shipped".data, "1Z".data, "ups".data, "Delivered".data, 0⟩] 2).get
        ⟨0, by decide⟩ =
      (⟨3, "shipped".data, "1Z".data, "ups".data, "Delivered".data, 0⟩ : Order) ∧
    (⟨3, "shipped".data, "1Z".data, "ups".data, "Delivered".data, 0⟩ : Order) ∉
      tickQueried (runTicks (fun _ _ _ => Except.ok "x".data) (fun _ => 5)
        [⟨3, "shipped".data, "1Z".data, "ups".data, "Delivered".data, 0⟩] 2) :=
  delivered_permanently_skipped (fun _ _ _ => Except.ok "x".data) (fun _ => 5)
    [⟨3, "shipped".data, "1Z".data, "ups".data, "Delivered".data, 0⟩] 0
    (by decide) (by decide) 2 (by decide)

/-- C2 counterexample: the adapter classifies "delivered to neighbor" as
delivered (is_delivered = true in the recorded tick-0 result), yet the very
next tick queries the carrier API for that order again, because the stored
tracking_status does not case-insensitively equal "delivered". -/
theorem delivered_classification_requeried_counterexample :
    classifyDelivered "delivered to neighbor".data = true ∧
    tickResults (netC2 0) 1 [orderC2] =
      [OrderResult.ok 1 "1Z999".data "in transit".data
        "delivered to neighbor".data true] ∧
    runTicks netC2 (fun _ => 1) [orderC2] 1 =
      [{ orderC2 with tracking_status := "delivered to neighbor".data,
                      updated_at := 1 }] ∧
    ({ orderC2 with tracking_status := "delivered to neighbor".data,
                    updated_at := 1 } : Order) ∈
      tickQueried (runTicks netC2 (fun _ => 1) [orderC2] 1) := by
  decide

theorem refreshOrder_error (net : Net) (now : Nat) (o : Order) (k : FailureKind)
    (hnet : net o.tracking_vendor (primaryTracking o) = .error k) :
    refreshOrder net now o = (o, .err o.id k (failureMessage k)) := by
  simp [refreshOrder, fetchStatus, hnet]

theorem refreshOrder_ok (net : Net) (now : Nat) (o : Order) (text : Str)
    (hnet : net o.tracking_vendor (primaryTracking o) = .ok text) :
    refreshOrder net now o =
      ({ o with tracking_status := text, updated_at := now },
       .ok o.id (primaryTracking o) o.tracking_status text (classifyDelivered text)) := by
  simp [refreshOrder, fetchStatus, hnet]

theorem tickOrders_get (net : Net) (now : Nat) (orders : List Order) (j : Nat)
    (h : j < orders.length) (h2 : j < (tickOrders net now orders).length) :
    (tickOrders net now orders).get ⟨j, h2⟩ =
      if isEligible (orders.get ⟨j, h⟩) then (refreshOrder net now (orders.get ⟨j, h⟩)).1
      else orders.get ⟨j, h⟩ := by
  simp only [tickOrders, List.get_eq_getElem, List.getElem_map]

theorem refresh_result_mem (net : Net) (now : Nat) (orders : List Order)
    (o : Order) (ho : o ∈ orders) (he : isEligible o = true) :
    (refreshOrder net now o).2 ∈ tickResults net now orders := by
  rw [tickResults]
  exact List.mem_map_of_mem _ (List.mem_filter.mpr ⟨ho, he⟩)

/-- C3: within one tick, an adapter failure for one order is caught at that
order's task boundary and recorded; every order still yields a result (the
tick processes everything: the post-state has one entry per order and the
results one record per eligible order), an eligible order whose own carrier
call succeeds is persisted as updated regardless of what the network does
for every other order (the theorem quantifies over all carrier oracles, and
the persisted entry of an order depends only on the oracle's answer for
that order), and a failing order's error record appears in the tick's
results instead of propagating. -/
theorem per_order_failure_isolated :
    ∀ (net : Net) (now : Nat) (orders : List Order) (j : Nat)
      (h : j < orders.length) (h2 : j < (tickOrders net now orders).length),
      (tickOrders net now orders).length = orders.length ∧
      (tickResults net now orders).length = (orders.filter isEligible).length ∧
      (∀ text : Str, isEligible (orders.get ⟨j, h⟩) = true →
        net (orders.get ⟨j, h⟩).tracking_vendor
            (primaryTracking (orders.get ⟨j, h⟩)) = .ok text →
        (tickOrders net now orders).get ⟨j, h2⟩ =
          { orders.get ⟨j, h⟩ with tracking_status := text, updated_at := now }) ∧
      (∀ (net2 : Net) (h3 : j < (tickOrders net2 now orders).length),
        net2 (orders.get ⟨j, h⟩).tracking_vendor
            (primaryTracking (orders.get ⟨j, h⟩)) =
          net (orders.get ⟨j, h⟩).tracking_vendor
            (primaryTracking (orders.get ⟨j, h⟩)) →
        (tickOrders net2 now orders).get ⟨j, h3⟩ =
          (tickOrders net now orders).get ⟨j, h2⟩) ∧
      (∀ k : FailureKind, isEligible (orders.get ⟨j, h⟩) = true →
        net (orders.get ⟨j, h⟩).tracking_vendor
            (primaryTracking (orders.get ⟨j, h⟩)) = .error k →
        OrderResult.err (orders.get ⟨j, h⟩).id k (failureMessage k) ∈
          tickResults net now orders) := by
  intro net now orders j h h2
  refine ⟨length_tickOrders net now orders, by simp [tickResults], ?_, ?_, ?_⟩
  · intro text he hnet
    rw [tickOrders_get net now orders j h h2, if_pos he,
      refreshOrder_ok net now _ text hnet]
  · intro net2 h3 hagree
    rw [tickOrders_get net now orders j h h2, tickOrders_get net2 now orders j h h3]
    by_cases he : isEligible (orders.get ⟨j, h⟩) = true
    · rw [if_pos he, if_pos he]
      cases hnet : net (orders.get ⟨j, h⟩).tracking_vendor
          (primaryTracking (orders.get ⟨j, h⟩)) with
      | ok text =>
          rw [refreshOrder_ok net now _ text hnet,
            refreshOrder_ok net2 now _ text (hagree.trans hnet)]
      | error k =>
          rw [refreshOrder_error net now _ k hnet,
            refreshOrder_error net2 now _ k (hagree.trans hnet)]
    · rw [if_neg he, if_neg he]
  · intro k he hnet
    have := refresh_result_mem net now orders (orders.get ⟨j, h⟩)
      (orders.get_mem j h) he
    rwa [refreshOrder_error net now _ k hnet] at this

/-- Witness for C3: with order 10's carrier call failing, order 11's update
is still persisted. -/
theorem per_order_failure_isolated_witness :
    (tickOrders netC3 9 ordersC3).get ⟨1, by decide⟩ =
      { (⟨11, "shipped".data, "B1".data, "ups".data, "in transit".data, 0⟩ : Order) with
          tracking_status := "out for delivery".data, updated_at := 9 } :=
  (per_order_failure_isolated netC3 9 ordersC3 1 (by decide) (by decide)).2.2.1
    "out for delivery".data (by decide) (by rfl)

/-- C4: a carrier timeout for an order is a Transient failure for that order
only — the order's record is unchanged by the tick, a failure with
kind=Transient is recorded for it, and it is still eligible on the next
tick. -/
theorem timeout_transient_retry :
    ∀ (net : Net) (now : Nat) (orders : List Order) (j : Nat)
      (h : j < orders.length) (h2 : j < (tickOrders net now orders).length),
      isEligible (orders.get ⟨j, h⟩) = true →
      net (orders.get ⟨j, h⟩).tracking_vendor
          (primaryTracking (orders.get ⟨j, h⟩)) = .error .Transient →
      (tickOrders net now orders).get ⟨j, h2⟩ = orders.get ⟨j, h⟩ ∧
      OrderResult.err (orders.get ⟨j, h⟩).id .Transient (failureMessage .Transient) ∈
        tickResults net now orders ∧
      isEligible ((tickOrders net now orders).get ⟨j, h2⟩) = true := by
  intro net now orders j h h2 he hnet
  have hfix : (tickOrders net now orders).get ⟨j, h2⟩ = orders.get ⟨j, h⟩ := by
    rw [tickOrders_get net now orders j h h2, if_pos he,
      refreshOrder_error net now _ _ hnet]
  refine ⟨hfix, ?_, ?_⟩
  · have := refresh_result_mem net now orders (orders.get ⟨j, h⟩)
      (orders.get_mem j h) he
    rwa [refreshOrder_error net now _ _ hnet] at this
  · rw [hfix]; exact he

/-- Witness for C4: a concrete timed-out order is untouched, recorded as
Transient, and still eligible. -/
theorem timeout_transient_retry_witness :
    (tickOrders (fun _ _ => Except.error FailureKind.Transient) 4
        [⟨5, "shipped".data, "X9".data, "usps".data, "in transit".data, 0⟩]).get
      ⟨0, by decide⟩ =
      (⟨5, "shipped".data, "X9".data, "usps".data, "in transit".data, 0⟩ : Order) ∧
    OrderResult.err 5 .Transient (failureMessage .Transient) ∈
      tickResults (fun _ _ => Except.error FailureKind.Transient) 4
        [⟨5, "shipped".data, "X9".data, "usps".data, "in transit".data, 0⟩] ∧
    isEligible ((tickOrders (fun _ _ => Except.error FailureKind.Transient) 4
        [⟨5, "shipped".data, "X9".data, "usps".data, "in transit".data, 0⟩]).get
      ⟨0, by decide⟩) = true :=
  timeout_transient_retry (fun _ _ => Except.error FailureKind.Transient) 4
    [⟨5, "shipped".data, "X9".data, "usps".data, "in transit".data, 0⟩] 0
    (by decide) (by decide) (by decide) (by rfl)

/-- C5: starting twice with the same interval yields exactly one active
periodic registration: when the job is already registered, start without
the force flag is a no-op (hence idempotent), a start on a state with at
most one registration leaves exactly one, and a forced start replaces the
previous registration in one atomic step, again leaving exactly one. -/
theorem start_tracking_scheduler_idempotent :
    ∀ (i : Nat) (s : List ScheduleEntry),
      (s.any (fun r => r.name == trackingJobName) = true →
        start_tracking_scheduler i false s = s) ∧
      start_tracking_scheduler i false (start_tracking_scheduler i false s) =
        start_tracking_scheduler i false s ∧
      (countJob s ≤ 1 → countJob (start_tracking_scheduler i false s) = 1) ∧
      countJob (start_tracking_scheduler i true s) = 1 := by
  intro i s
  by_cases hany : s.any (fun r => r.name == trackingJobName) = true
  · have hstart : start_tracking_scheduler i false s = s := by
      simp [start_tracking_scheduler, hany]
    have hpos : 1 ≤ countJob s := by
      rw [List.any_eq_true] at hany
      obtain ⟨r, hr, hrname⟩ := hany
      have : r ∈ s.filter (fun r => r.name == trackingJobName) :=
        List.mem_filter.mpr ⟨hr, hrname⟩
      have := List.length_pos.mpr (List.ne_nil_of_mem this)
      exact this
    refine ⟨fun _ => hstart, by rw [hstart, hstart], fun hle => ?_, ?_⟩
    · rw [hstart]; omega
    · rw [start_tracking_scheduler, if_pos hany, if_pos rfl]
      rw [countJob, List.filter_cons_of_pos, List.filter_filter]
      · simp
      · simp
  · have hzero : countJob s = 0 := by
      rw [countJob, List.length_eq_zero, List.filter_eq_nil_iff]
      intro r hr
      rw [List.any_eq_true] at hany
      exact fun hc => hany ⟨r, hr, hc⟩
    have hstart : start_tracking_scheduler i false s =
        ⟨trackingJobName, i⟩ :: s := by
      simp only [start_tracking_scheduler, if_neg hany]
    have hone : countJob (⟨trackingJobName, i⟩ :: s) = 1 := by
      rw [countJob, List.filter_cons_of_pos]
      · simp only [List.length_cons]
        rw [countJob] at hzero
        omega
      · simp
    refine ⟨fun habs => absurd habs hany, ?_, fun _ => by rw [hstart]; exact hone, ?_⟩
    · rw [hstart]
      have : (⟨trackingJobName, i⟩ :: s).any
          (fun r => r.name == trackingJobName) = true := by simp
      simp [start_tracking_scheduler, this]
    · rw [start_tracking_scheduler, if_neg hany]
      exact hone

/-- Witness for C5: starting on the empty registry, then starting again,
leaves exactly one active registration. -/
theorem start_tracking_scheduler_idempotent_witness :
    start_tracking_scheduler 720 false (start_tracking_scheduler 720 false []) =
      start_tracking_scheduler 720 false [] ∧
    countJob (start_tracking_scheduler 720 false []) = 1 :=
  ⟨(start_tracking_scheduler_idempotent 720 []).2.1,
   (start_tracking_scheduler_idempotent 720 []).2.2.1 (by decide)⟩

theorem failureMessage_ne_nil (k : FailureKind) : failureMessage k ≠ [] := by
  cases k <;> decide

theorem resultShapeOk_refresh (net : Net) (now : Nat) (o : Order) :
    resultShapeOk (refreshOrder net now o).2 := by
  cases h : fetchStatus net o.tracking_vendor (primaryTracking o) with
  | ok r => simp [refreshOrder, h, resultShapeOk]
  | error k => simp [refreshOrder, h, resultShapeOk, failureMessage_ne_nil k]

/-- C6: the bulk tracking/update endpoint reports success:true, one
well-shaped result object per processed (eligible) order — the success
variant with the success/order_id/tracking_number/old_status/new_status/
is_delivered fields or the failure variant with a non-empty human-readable
error string — and, when no order is eligible, success:true with zero
processed rather than an error. -/
theorem bulk_update_response :
    ∀ (net : Net) (now : Nat) (orders : List Order),
      (update_all_pending_orders net now orders).2.success = true ∧
      (orders.filter isEligible = [] →
        (update_all_pending_orders net now orders).2.processed = 0 ∧
        (update_all_pending_orders net now orders).2.results = []) ∧
      (∀ r ∈ (update_all_pending_orders net now orders).2.results,
        (∃ o, o ∈ orders ∧ isEligible o = true ∧ r = (refreshOrder net now o).2) ∧
        resultShapeOk r) := by
  intro net now orders
  refine ⟨rfl, fun hnil => ?_, fun r hr => ?_⟩
  · constructor <;> simp [update_all_pending_orders, tickResults, hnil]
  · simp only [update_all_pending_orders, tickResults, List.mem_map,
      List.mem_filter] at hr
    obtain ⟨o, ⟨ho, he⟩, hro⟩ := hr
    refine ⟨⟨o, ho, he, hro.symm⟩, ?_⟩
    rw [← hro]
    exact resultShapeOk_refresh net now o

/-- Witness for C6 on an empty order store: success:true, zero processed. -/
theorem bulk_update_response_witness :
    (update_all_pending_orders (fun _ _ => Except.error FailureKind.Transient)
        0 []).2.success = true ∧
    (update_all_pending_orders (fun _ _ => Except.error FailureKind.Transient)
        0 []).2.processed = 0 :=
  ⟨(bulk_update_response (fun _ _ => Except.error FailureKind.Transient) 0 []).1,
   ((bulk_update_response (fun _ _ => Except.error FailureKind.Transient) 0
      []).2.1 (by decide)).1⟩

theorem single_update_ok_inv (net : Net) (now : Nat) (orders : List Order)
    (oid a : Nat) (tn oldSt newSt : Str) (d : Bool) :
    (update_single_order_tracking net now orders oid).2 = .ok a tn oldSt newSt d →
    (update_single_order_tracking net now orders oid).1 =
      orders.map (fun p => if p.id == oid then
        { p with tracking_status := newSt, updated_at := now } else p) := by
  unfold update_single_order_tracking
  cases hfind : orders.find? (fun o => o.id == oid) with
  | none => intro h; exact absurd h (by simp)
  | some o0 =>
      dsimp only
      by_cases hdel : (toLower o0.tracking_status == "delivered".data) = true
      · rw [if_pos hdel]; intro h; exact absurd h (by simp)
      · rw [if_neg hdel]
        cases hfetch : fetchStatus net o0.tracking_vendor (primaryTracking o0) with
        | ok r =>
            intro h
            simp only at h
            cases h
            rfl
        | error k => intro h; exact absurd h (by simp)

/-- C7: a successful per-order refresh writes exactly `tracking_status` and
`updated_at` of that single order in one atomic update — the target order's
entry becomes the old record with only those two fields replaced (so id,
status, tracking_ids and tracking_vendor are untouched, and `updated_at` is
set along with the status), and every order with a different id keeps its
record unchanged. -/
theorem single_update_frame :
    ∀ (net : Net) (now : Nat) (orders : List Order) (oid a : Nat)
      (tn oldSt newSt : Str) (d : Bool),
      (update_single_order_tracking net now orders oid).2 = .ok a tn oldSt newSt d →
      ∀ (j : Nat) (o : Order), orders[j]? = some o →
        (o.id ≠ oid →
          (update_single_order_tracking net now orders oid).1[j]? = some o) ∧
        (o.id = oid →
          (update_single_order_tracking net now orders oid).1[j]? =
            some { o with tracking_status := newSt, updated_at := now }) := by
  intro net now orders oid a tn oldSt newSt d hresp j o hj
  rw [single_update_ok_inv net now orders oid a tn oldSt newSt d hresp,
    List.getElem?_map, hj]
  constructor
  · intro hne
    simp [hne]
  · intro heq
    simp [heq]

/-- Witness for C7 on a concrete two-order store: order 6 is refreshed in
place, order 5 is untouched. -/
theorem single_update_frame_witness :
    (update_single_order_tracking (fun _ _ => Except.ok "Delivered".data) 7
        [⟨5, "shipped".data, "T5".data, "ups".data, "in transit".data, 2⟩,
         ⟨6, "shipped".data, "T6".data, "fedex".data, "in transit".data, 3⟩]
        6).1[0]? =
      some (⟨5, "shipped".data, "T5".data, "ups".data, "in transit".data, 2⟩ : Order) ∧
    (update_single_order_tracking (fun _ _ => Except.ok "Delivered".data) 7
        [⟨5, "shipped".data, "T5".data, "ups".data, "in transit".data, 2⟩,
         ⟨6, "shipped".data, "T6".data, "fedex".data, "in transit".data, 3⟩]
        6).1[1]? =
      some (⟨6, "shipped".data, "T6".data, "fedex".data, "Delivered".data, 7⟩ : Order) :=
  ⟨(single_update_frame (fun _ _ => Except.ok "Delivered".data) 7
      [⟨5, "shipped".data, "T5".data, "ups".data, "in transit".data, 2⟩,
       ⟨6, "shipped".data, "T6".data, "fedex".data, "in transit".data, 3⟩]
      6 6 "T6".data "in transit".data "Delivered".data true (by decide) 0
      ⟨5, "shipped".data, "T5".data, "ups".data, "in transit".data, 2⟩
      (by decide)).1 (by decide),
   (single_update_frame (fun _ _ => Except.ok "Delivered".data) 7
      [⟨5, "shipped".data, "T5".data, "ups".data, "in transit".data, 2⟩,
       ⟨6, "shipped".data, "T6".data, "fedex".data, "in transit".data, 3⟩]
      6 6 "T6".data "in transit".data "Delivered".data true (by decide) 1
      ⟨6, "shipped".data, "T6".data, "fedex".data, "in transit".data, 3⟩
      (by decide)).2 (by decide)⟩

/-- C8: for an order missing tracking_ids or tracking_vendor no refresh work
is ever performed — the manual per-order path returns at the guard with a
warning and never issues the fetch-tracking-status request, the Order
Selector never includes the order, and no tick ever invokes the Tracking
Client Adapter for it. -/
theorem missing_tracking_never_fetched :
    ∀ (o : Order) (orders : List Order),
      o.tracking_ids = [] ∨ o.tracking_vendor = [] →
      handleFetchTrackingStatus o = .warned ∧
      o ∉ selectEligibleOrders orders ∧
      o ∉ tickQueried orders := by
  intro o orders hmiss
  have hel : isEligible o = false := by
    rcases hmiss with h | h <;> simp [isEligible, h]
  have hnot : ∀ l : List Order, o ∉ l.filter isEligible := by
    intro l hmem
    rw [List.mem_filter, hel] at hmem
    exact Bool.false_ne_true hmem.2
  exact ⟨by rw [handleFetchTrackingStatus, if_pos hmiss], hnot orders, hnot orders⟩

/-- Witness for C8 on the spec's scenario order (shipped, fedex, empty
tracking_ids). -/
theorem missing_tracking_never_fetched_witness :
    handleFetchTrackingStatus
        ⟨8, "shipped".data, [], "fedex".data, [], 0⟩ = .warned ∧
    (⟨8, "shipped".data, [], "fedex".data, [], 0⟩ : Order) ∉
      selectEligibleOrders [⟨8, "shipped".data, [], "fedex".data, [], 0⟩] ∧
    (⟨8, "shipped".data, [], "fedex".data, [], 0⟩ : Order) ∉
      tickQueried [⟨8, "shipped".data, [], "fedex".data, [], 0⟩] :=
  missing_tracking_never_fetched ⟨8, "shipped".data, [], "fedex".data, [], 0⟩
    [⟨8, "shipped".data, [], "fedex".data, [], 0⟩] (Or.inl rfl)

/-- C9 counterexample: for an order whose tracking_ids holds the two numbers
111 and 222, a tick queries only 111 — the second number is in the parsed
list but is never sent to the carrier, refuting "ALL of the numbers are
tracked for status". -/
theorem multi_tracking_counterexample :
    "222".data ∈ parseTrackingIds orderC9.tracking_ids ∧
    tickQueriedNumbers [orderC9] = ["111".data] ∧
    "222".data ∉ tickQueriedNumbers [orderC9] := by decide

/-- C9 (amended): for an order with multiple comma-separated tracking
numbers, the first number is the one used for tracking-URL construction
(every URL the frontend builds ends in the trimmed first segment), and only
that first/primary number is queried for status: the numbers a tick sends
to the carrier are exactly the primary numbers of the eligible orders. -/
theorem primary_only_tracking :
    (∀ (orders : List Order) (o : Order), o ∈ tickQueried orders →
      primaryTracking o ∈ tickQueriedNumbers orders) ∧
    (∀ (orders : List Order) (n : Str), n ∈ tickQueriedNumbers orders →
      ∃ o, o ∈ orders ∧ isEligible o = true ∧ n = primaryTracking o) ∧
    (∀ (vendor trackingId u : Str), getTrackingUrl vendor trackingId = some u →
      ∃ p, u = p ++ trim (firstSegment trackingId)) := by
  refine ⟨?_, ?_, ?_⟩
  · intro orders o ho
    exact List.mem_map_of_mem _ ho
  · intro orders n hn
    rw [tickQueriedNumbers, List.mem_map] at hn
    obtain ⟨o, ho, hon⟩ := hn
    rw [tickQueried, List.mem_filter] at ho
    exact ⟨o, ho.1, ho.2, hon.symm⟩
  · intro v t u h
    simp only [getTrackingUrl] at h
    split_ifs at h with h1 h2 h3 h4 h5 <;>
      exact ⟨_, (Option.some.inj h).symm⟩

/-- Witness for C9 (amended): the fedex URL built for "111,222" ends in the
trimmed first segment. -/
theorem primary_only_tracking_witness :
    ∃ p, "https://www.fedex.com/fedextrack/?trknbr=111".data =
      p ++ trim (firstSegment "111,222".data) :=
  primary_only_tracking.2.2 "fedex".data "111,222".data
    "https://www.fedex.com/fedextrack/?trknbr=111".data (by decide)

end EmbHub
